import Mathlib

/-!
Verification of the Flask CI/CD demo service (`src/app.py`) via a shallow
embedding.  The application is a small HTTP request router: six handlers
produce JSON or HTML payloads, a 404/500 error responder produces a uniform
JSON envelope, and process-wide configuration is read once from environment
variables at startup (`create_app`, app.py lines 24–38).

External collaborators (the HTTP framework's request dispatcher, the JSON
body parser, the system-metrics provider psutil, and the clock) are embedded
as explicit parameters; everything the repository itself computes is
translated directly from `src/app.py`.
-/

namespace FlaskDemo

/-! ## JSON values

JSON documents exchanged by the service: null, booleans, numbers, strings,
arrays, and objects (ordered field lists, as Python dicts preserve
insertion order). -/

inductive Json where
  | null : Json
  | bool (b : Bool) : Json
  | num (q : ℚ) : Json
  | str (s : String) : Json
  | arr (xs : List Json) : Json
  | obj (fields : List (String × Json)) : Json
  deriving Repr

/-- Python truthiness of a JSON value: `None`, `False`, `0`, `""`, `[]`
and `\x7b\x7d` are falsy, everything else is truthy.  This is what the
idiom `request.get_json() or \x7b\x7d` (app.py line 188) branches on. -/
def Json.pyTruthy : Json → Bool
  | .null => false
  | .bool b => b
  | .num q => q ≠ 0
  | .str s => !s.isEmpty
  | .arr xs => !xs.isEmpty
  | .obj fs => !fs.isEmpty

/-- Field lookup in a JSON object (first binding wins); `none` on
non-objects or missing keys. -/
def Json.lookup (j : Json) (k : String) : Option Json :=
  match j with
  | .obj fs =>
    match fs.find? (fun p => p.1 = k) with
    | some p => some p.2
    | none => none
  | _ => none

/-- The list of field names of a JSON object, in order. -/
def Json.keys : Json → List String
  | .obj fs => fs.map (·.1)
  | _ => []

/-! ## Datetimes

`datetime.utcnow()` readings, as supplied by the clock collaborator. -/

structure DateTime where
  year : Nat
  month : Nat
  day : Nat
  hour : Nat
  minute : Nat
  second : Nat
  microsecond : Nat
  deriving Repr, DecidableEq

/-- In-range calendar/clock fields (what `datetime` guarantees of any of
its values). -/
def DateTime.Valid (d : DateTime) : Prop :=
  1 ≤ d.year ∧ d.year ≤ 9999 ∧ 1 ≤ d.month ∧ d.month ≤ 12 ∧
  1 ≤ d.day ∧ d.day ≤ 31 ∧ d.hour ≤ 23 ∧ d.minute ≤ 59 ∧
  d.second ≤ 59 ∧ d.microsecond ≤ 999999

instance (d : DateTime) : Decidable d.Valid := by
  unfold DateTime.Valid; infer_instance

/-- Zero-pad a numeral to width 2. -/
def pad2 (n : Nat) : String :=
  if n < 10 then "0" ++ toString n else toString n

/-- Zero-pad a numeral to width 4. -/
def pad4 (n : Nat) : String :=
  if n < 10 then "000" ++ toString n
  else if n < 100 then "00" ++ toString n
  else if n < 1000 then "0" ++ toString n
  else toString n

/-- Zero-pad a numeral to width 6. -/
def pad6 (n : Nat) : String :=
  if n < 10 then "00000" ++ toString n
  else if n < 100 then "0000" ++ toString n
  else if n < 1000 then "000" ++ toString n
  else if n < 10000 then "00" ++ toString n
  else if n < 100000 then "0" ++ toString n
  else toString n

/-- `datetime.isoformat()`: `YYYY-MM-DDTHH:MM:SS[.ffffff]`, the
microseconds part omitted when zero. -/
def isoformat (d : DateTime) : String :=
  pad4 d.year ++ "-" ++ pad2 d.month ++ "-" ++ pad2 d.day ++ "T" ++
  pad2 d.hour ++ ":" ++ pad2 d.minute ++ ":" ++ pad2 d.second ++
  (if d.microsecond = 0 then "" else "." ++ pad6 d.microsecond)

/-- `datetime.strftime("%Y-%m-%d %H:%M:%S UTC")`, used by the home page
(app.py line 137). -/
def strftimeUTC (d : DateTime) : String :=
  pad4 d.year ++ "-" ++ pad2 d.month ++ "-" ++ pad2 d.day ++ " " ++
  pad2 d.hour ++ ":" ++ pad2 d.minute ++ ":" ++ pad2 d.second ++ " UTC"

/-- A string is ISO-8601 (as produced for UTC instants) when it is the
`isoformat` rendering of some in-range datetime. -/
def IsISO8601 (s : String) : Prop :=
  ∃ d : DateTime, d.Valid ∧ isoformat d = s

/-! ## Configuration

`app.config` as populated by `create_app` (app.py lines 28–38): read once
from the environment, immutable for the process lifetime. -/

structure Config where
  secretKey : String
  debug : Bool
  testing : Bool
  port : Int
  host : String
  env : String
  version : String
  buildNumber : String
  gitCommit : String
  deriving Repr, DecidableEq

/-- `str.lower()` as applied to the boolean environment strings
(ASCII-faithful): lowercase every character. -/
def pyLower (s : String) : String := ⟨s.data.map Char.toLower⟩

/-- Python `int(...)` on a decimal string: an optional sign followed by at
least one digit; any other string raises (here: `none`). -/
def decDigits? (cs : List Char) : Option Nat :=
  if cs ≠ [] ∧ cs.all Char.isDigit then
    some (cs.foldl (fun n c => n * 10 + (c.toNat - 48)) 0)
  else none

/-- Python `int(...)` applied to a string, signed. -/
def pyInt? (s : String) : Option Int :=
  match s.data with
  | '-' :: rest => (decDigits? rest).map (fun n => -(n : Int))
  | '+' :: rest => (decDigits? rest).map (fun n => (n : Int))
  | cs => (decDigits? cs).map (fun n => (n : Int))

/-- The process environment: variable name to value, `none` when unset. -/
def Env : Type := String → Option String

/-- `os.environ.get(name, dflt)`. -/
def envGet (env : Env) (name dflt : String) : String :=
  (env name).getD dflt

/-- `create_app` configuration block (app.py lines 28–38).  `int(...)` on
the `PORT` string fails at startup for a non-numeric value, hence the
`Option`; `VERSION` is the hardcoded literal `"1.0.0"`. -/
def create_app (env : Env) : Option Config :=
  match pyInt? (envGet env "PORT" "5000") with
  | none => none
  | some p => some {
      secretKey := envGet env "SECRET_KEY" "dev-secret-key-change-in-production"
      debug := pyLower (envGet env "FLASK_DEBUG" "False") = "true"
      testing := pyLower (envGet env "FLASK_TESTING" "False") = "true"
      port := p
      host := envGet env "HOST" "0.0.0.0"
      env := envGet env "FLASK_ENV" "production"
      version := "1.0.0"
      buildNumber := envGet env "BUILD_NUMBER" "unknown"
      gitCommit := envGet env "GIT_COMMIT" "unknown" }

/-! ## Requests, collaborators and responses -/

/-- Outcome of `request.get_json()` for the echo handler.  Modelled from
the spec (§4.6): the JSON body parser is the HTTP framework's; an absent
body (or one the framework does not attempt to parse) yields `None`, a
genuinely malformed JSON body raises, and otherwise the parsed value is
returned. -/
inductive ParseResult where
  | ok (j : Json)
  | noneVal
  | parseError (msg : String)
  deriving Repr

/-- One inbound HTTP request, with the body-parse outcome attached. -/
structure Request where
  method : String
  path : String
  contentType : Option String
  headers : List (String × String)
  parsedBody : ParseResult

/-- The external collaborators a handler may consult: the system-metrics
provider (psutil) with its availability flag, and the runtime-identity
values (`sys.version`, `Flask.__version__`, `os.getpid()`). -/
structure Collab where
  psutilAvailable : Bool
  cpuPercent : ℚ
  memoryPercent : ℚ
  diskPercent : ℚ
  pyVersionStr : String
  flaskVersionStr : String
  processId : Int

/-- A response body: a JSON document, an HTML page, or the framework's
own default body (used for the 405 fallback, for which the app defines no
custom payload). -/
inductive ResponseBody where
  | json (j : Json)
  | html (page : String)
  | frameworkDefault

/-- An HTTP response: status code and body. -/
structure Response where
  status : Nat
  body : ResponseBody

/-- Field lookup in a JSON response body. -/
def Response.field (r : Response) (k : String) : Option Json :=
  match r.body with
  | .json j => j.lookup k
  | _ => none

/-- The `rate_limit` decorator (app.py lines 72–80) is a no-op: it returns
the wrapped handler unchanged. -/
def rate_limit {α : Type} (_max_requests : Nat) (f : α) : α := f

/-! ## Handlers -/

/-- The home page HTML (app.py lines 87–132) after template substitution
of version, environment, current time, build number, git commit, host and
port (app.py lines 134–142). -/
def homePage (version env currentTime buildNumber gitCommit host port : String) : String :=
  "
        <!DOCTYPE html>
        <html>
        <head>
            <title>Flask CI/CD Demo App</title>
            <meta charset=\"utf-8\">
            <meta name=\"viewport\" content=\"width=device-width, initial-scale=1\">
            <style>
                body \x7b font-family: Arial, sans-serif; margin: 40px; background-color: #f5f5f5; \x7d
                .container \x7b max-width: 800px; margin: 0 auto; background: white; padding: 30px; border-radius: 8px; box-shadow: 0 2px 10px rgba(0,0,0,0.1); \x7d
                .header \x7b color: #2c3e50; border-bottom: 2px solid #3498db; padding-bottom: 10px; \x7d
                .info-box \x7b background-color: #ecf0f1; padding: 15px; border-radius: 5px; margin: 10px 0; \x7d
                .status-ok \x7b color: #27ae60; font-weight: bold; \x7d
                .build-info \x7b background-color: #e8f4fd; border-left: 4px solid #3498db; padding: 10px; margin: 10px 0; \x7d
            </style>
        </head>
        <body>
            <div class=\"container\">
                <h1 class=\"header\">🚀 Flask CI/CD Demo Application</h1>
                <div class=\"info-box\">
                    <h3>Application Status: <span class=\"status-ok\">✅ RUNNING</span></h3>
                    <p><strong>Version:</strong> " ++ version ++ "</p>
                    <p><strong>Environment:</strong> " ++ env ++ "</p>
                    <p><strong>Current Time:</strong> " ++ currentTime ++ "</p>
                </div>

                <div class=\"build-info\">
                    <h4>Build Information</h4>
                    <p><strong>Build Number:</strong> " ++ buildNumber ++ "</p>
                    <p><strong>Git Commit:</strong> " ++ gitCommit ++ "</p>
                    <p><strong>Host:</strong> " ++ host ++ ":" ++ port ++ "</p>
                </div>

                <h3>Available Endpoints:</h3>
                <ul>
                    <li><code>GET /</code> - This home page</li>
                    <li><code>GET /health</code> - Health check endpoint</li>
                    <li><code>GET /api/status</code> - Application status (JSON)</li>
                    <li><code>GET /api/version</code> - Version information (JSON)</li>
                    <li><code>POST /api/echo</code> - Echo service for testing</li>
                    <li><code>GET /api/metrics</code> - Application metrics</li>
                </ul>
            </div>
        </body>
        </html>
        "

/-- `home` handler (`GET /`, app.py lines 83–142). -/
def home (cfg : Config) (t : DateTime) : Response :=
  ⟨200, .html (homePage cfg.version cfg.env (strftimeUTC t) cfg.buildNumber
      cfg.gitCommit cfg.host (toString cfg.port))⟩

/-- `health_check` handler (`GET /health`, app.py lines 144–153). -/
def health_check (cfg : Config) (t : DateTime) : Response :=
  ⟨200, .json (.obj [
    ("status", .str "healthy"),
    ("timestamp", .str (isoformat t)),
    ("version", .str cfg.version),
    ("uptime", .str "Available")])⟩

/-- `api_status` handler (`GET /api/status`, app.py lines 155–169). -/
def api_status (cfg : Config) (t : DateTime) : Response :=
  ⟨200, .json (.obj [
    ("application", .str "Flask CI/CD Demo"),
    ("status", .str "running"),
    ("version", .str cfg.version),
    ("environment", .str cfg.env),
    ("build_number", .str cfg.buildNumber),
    ("git_commit", .str cfg.gitCommit),
    ("timestamp", .str (isoformat t)),
    ("debug_mode", .bool cfg.debug),
    ("testing_mode", .bool cfg.testing)])⟩

/-- `api_version` handler (`GET /api/version`, app.py lines 171–181). -/
def api_version (cfg : Config) (c : Collab) : Response :=
  ⟨200, .json (.obj [
    ("version", .str cfg.version),
    ("build_number", .str cfg.buildNumber),
    ("git_commit", .str cfg.gitCommit),
    ("python_version", .str c.pyVersionStr),
    ("flask_version", .str c.flaskVersionStr)])⟩

/-- `data = request.get_json() or \x7b\x7d` (app.py line 188): a parse
exception escapes to the `except` clause; a `None` result — and any
Python-falsy parsed value, by the semantics of `or` — is replaced by the
empty dict. -/
def getJsonOrEmpty : ParseResult → Except String Json
  | .ok j => .ok (if j.pyTruthy then j else .obj [])
  | .noneVal => .ok (.obj [])
  | .parseError msg => .error msg

/-- `api_echo` handler (`POST /api/echo`, app.py lines 183–198): on
success, echo the (possibly defaulted) body together with method, content
type, timestamp and headers; on an exception while obtaining the body,
HTTP 400 with the exception message. -/
def api_echo (req : Request) (t : DateTime) : Response :=
  match getJsonOrEmpty req.parsedBody with
  | .ok data =>
    ⟨200, .json (.obj [
      ("echo", data),
      ("method", .str req.method),
      ("content_type", match req.contentType with | some ct => .str ct | none => .null),
      ("timestamp", .str (isoformat t)),
      ("headers", .obj (req.headers.map fun p => (p.1, Json.str p.2)))])⟩
  | .error msg => ⟨400, .json (.obj [("error", .str msg)])⟩

/-- `api_metrics` handler (`GET /api/metrics`, app.py lines 200–233).
`import psutil` (line 204) stands BEFORE the `try` block, so when psutil
is unavailable the ImportError is raised there and escapes the handler
(the `except ImportError` at line 222 guards only the `try` body, whose
psutil calls cannot raise ImportError once the import has succeeded). -/
def api_metrics (cfg : Config) (c : Collab) (t : DateTime) : Except String Response :=
  if c.psutilAvailable then
    .ok ⟨200, .json (.obj [
      ("system", .obj [
        ("cpu_percent", .num c.cpuPercent),
        ("memory_percent", .num c.memoryPercent),
        ("disk_usage", .num c.diskPercent)]),
      ("application", .obj [
        ("version", .str cfg.version),
        ("environment", .str cfg.env),
        ("python_version", .str c.pyVersionStr),
        ("process_id", .num (c.processId : ℚ))]),
      ("timestamp", .str (isoformat t))])⟩
  else
    .error "No module named psutil"

/-- The `except ImportError` fallback payload (app.py lines 222–233).
Unreachable for a missing psutil: the handler has already raised at the
`import psutil` line before entering the `try` block. -/
def api_metrics_fallback (cfg : Config) (c : Collab) (t : DateTime) : Response :=
  ⟨200, .json (.obj [
    ("system", .str "metrics unavailable - psutil not installed"),
    ("application", .obj [
      ("version", .str cfg.version),
      ("environment", .str cfg.env),
      ("python_version", .str c.pyVersionStr),
      ("process_id", .num (c.processId : ℚ))]),
    ("timestamp", .str (isoformat t))])⟩

/-! ## Error responder and dispatch -/

/-- `not_found` 404 handler (app.py lines 53–60). -/
def not_found (t : DateTime) : Response :=
  ⟨404, .json (.obj [
    ("error", .str "Not Found"),
    ("message", .str "The requested resource was not found"),
    ("status_code", .num 404),
    ("timestamp", .str (isoformat t))])⟩

/-- `internal_error` 500 handler (app.py lines 62–70). -/
def internal_error (t : DateTime) : Response :=
  ⟨500, .json (.obj [
    ("error", .str "Internal Server Error"),
    ("message", .str "An unexpected error occurred"),
    ("status_code", .num 500),
    ("timestamp", .str (isoformat t))])⟩

/-- The route table from the `@app.route` declarations (app.py lines 83,
144, 155, 171, 183, 200): allowed methods per known path, `none` for an
unknown path. -/
def routeMethods (path : String) : Option (List String) :=
  if path = "/" then some ["GET"]
  else if path = "/health" then some ["GET"]
  else if path = "/api/status" then some ["GET"]
  else if path = "/api/version" then some ["GET"]
  else if path = "/api/echo" then some ["POST"]
  else if path = "/api/metrics" then some ["GET"]
  else none

/-- One request/response cycle.  Routing is by the table above; the
NotFound / MethodNotAllowed fallbacks are the HTTP framework's standard
behavior, modelled from the spec (§4.1): an unknown path yields the 404
responder, a known path with an unlisted method yields HTTP 405 with the
framework's default body.  An exception escaping a handler is converted
by the framework to the registered 500 responder (spec §4.9).  The
process-wide configuration is returned unchanged: no handler writes to
`app.config`. -/
def step (cfg : Config) (c : Collab) (req : Request) (t : DateTime) :
    Response × Config :=
  let resp :=
    match routeMethods req.path with
    | none => not_found t
    | some ms =>
      if req.method ∈ ms then
        if req.path = "/" then rate_limit 1000 home cfg t
        else if req.path = "/health" then rate_limit 10000 health_check cfg t
        else if req.path = "/api/status" then rate_limit 1000 api_status cfg t
        else if req.path = "/api/version" then rate_limit 1000 api_version cfg c
        else if req.path = "/api/echo" then rate_limit 100 api_echo req t
        else
          match rate_limit 100 api_metrics cfg c t with
          | .ok r => r
          | .error _ => internal_error t
      else ⟨405, .frameworkDefault⟩
  (resp, cfg)

/-! ## Concrete fixtures (environments, configurations, requests) -/

/-- An empty process environment: every variable unset. -/
def env0 : Env := fun _ => none

/-- An environment exercising non-`"true"` boolean strings:
`FLASK_DEBUG=1`, `FLASK_TESTING=TRUE`. -/
def env1 : Env := fun n =>
  if n = "FLASK_DEBUG" then some "1"
  else if n = "FLASK_TESTING" then some "TRUE" else none

/-- The configuration produced from the empty environment (all
defaults). -/
def cfg0 : Config :=
  { secretKey := "dev-secret-key-change-in-production"
    debug := false
    testing := false
    port := 5000
    host := "0.0.0.0"
    env := "production"
    version := "1.0.0"
    buildNumber := "unknown"
    gitCommit := "unknown" }

/-- The configuration produced from `env1`: `"1"` does not lowercase to
`"true"`, `"TRUE"` does. -/
def cfg1 : Config :=
  { secretKey := "dev-secret-key-change-in-production"
    debug := false
    testing := true
    port := 5000
    host := "0.0.0.0"
    env := "production"
    version := "1.0.0"
    buildNumber := "unknown"
    gitCommit := "unknown" }

/-- Collaborators with psutil installed. -/
def collab0 : Collab :=
  { psutilAvailable := true
    cpuPercent := 12
    memoryPercent := 34
    diskPercent := 56
    pyVersionStr := "3.11.0 (main)"
    flaskVersionStr := "2.0.3"
    processId := 4242 }

/-- Collaborators with psutil NOT installed. -/
def collabNoPsutil : Collab :=
  { collab0 with psutilAvailable := false }

/-- A clock reading. -/
def t0 : DateTime := ⟨2026, 10, 12, 8, 30, 0, 123456⟩

/-- A later clock reading. -/
def t1 : DateTime := ⟨2026, 10, 12, 9, 45, 7, 0⟩

/-- `GET /health`. -/
def healthReq : Request := ⟨"GET", "/health", none, [], .noneVal⟩

/-- `GET /api/status`. -/
def statusReq : Request := ⟨"GET", "/api/status", none, [], .noneVal⟩

/-- `GET /api/version`. -/
def versionReq : Request := ⟨"GET", "/api/version", none, [], .noneVal⟩

/-- `GET /api/metrics`. -/
def metricsReq : Request := ⟨"GET", "/api/metrics", none, [], .noneVal⟩

/-- `POST /api/echo` with a given body-parse outcome. -/
def echoReq (p : ParseResult) : Request :=
  ⟨"POST", "/api/echo", some "application/json",
   [("Content-Type", "application/json")], p⟩

/-- `GET /nonexistent-endpoint` (no route matches). -/
def missingReq : Request := ⟨"GET", "/nonexistent-endpoint", none, [], .noneVal⟩

/-! ## Theorems -/

/-- **C4** — Every call to `GET /health` returns HTTP 200 unconditionally
with exactly the fields `status == "healthy"`, `timestamp` an ISO-8601 UTC
string, `version` the configured version, and `uptime == "Available"`. -/
theorem health_contract (cfg : Config) (c : Collab) (t : DateTime)
    (ht : t.Valid) :
    (step cfg c healthReq t).1.status = 200 ∧
    (step cfg c healthReq t).1.body = .json (.obj [
      ("status", .str "healthy"),
      ("timestamp", .str (isoformat t)),
      ("version", .str cfg.version),
      ("uptime", .str "Available")]) ∧
    IsISO8601 (isoformat t) :=
  ⟨rfl, rfl, t, ht, rfl⟩

/-- Witness for `health_contract` at the default configuration and a
concrete clock reading. -/
theorem health_contract_witness :
    (step cfg0 collab0 healthReq t0).1.status = 200 ∧
    (step cfg0 collab0 healthReq t0).1.body = .json (.obj [
      ("status", .str "healthy"),
      ("timestamp", .str (isoformat t0)),
      ("version", .str cfg0.version),
      ("uptime", .str "Available")]) ∧
    IsISO8601 (isoformat t0) :=
  health_contract cfg0 collab0 t0 (by decide)

/-- **C6** — Every call to `GET /api/status` returns HTTP 200 with exactly
the fields application, status, version, environment, build_number,
git_commit, timestamp, debug_mode, testing_mode, where
`status == "running"`, `application == "Flask CI/CD Demo"`, and the
configuration-derived fields take their values from the process-wide
configuration snapshot. -/
theorem status_contract (cfg : Config) (c : Collab) (t : DateTime) :
    (step cfg c statusReq t).1.status = 200 ∧
    (step cfg c statusReq t).1.body = .json (.obj [
      ("application", .str "Flask CI/CD Demo"),
      ("status", .str "running"),
      ("version", .str cfg.version),
      ("environment", .str cfg.env),
      ("build_number", .str cfg.buildNumber),
      ("git_commit", .str cfg.gitCommit),
      ("timestamp", .str (isoformat t)),
      ("debug_mode", .bool cfg.debug),
      ("testing_mode", .bool cfg.testing)]) :=
  ⟨rfl, rfl⟩

/-- **C5** — Every request whose path matches no route is answered with
HTTP 404 and a JSON body of exactly the four fields
`error == "Not Found"`, `message == "The requested resource was not
found"`, `status_code == 404`, and an ISO-8601 UTC `timestamp`. -/
theorem not_found_envelope (cfg : Config) (c : Collab) (req : Request)
    (t : DateTime) (hpath : routeMethods req.path = none) (ht : t.Valid) :
    (step cfg c req t).1.status = 404 ∧
    (step cfg c req t).1.body = .json (.obj [
      ("error", .str "Not Found"),
      ("message", .str "The requested resource was not found"),
      ("status_code", .num 404),
      ("timestamp", .str (isoformat t))]) ∧
    IsISO8601 (isoformat t) := by
  have hstep : step cfg c req t = (not_found t, cfg) := by
    simp only [step]
    rw [hpath]
  rw [hstep]
  exact ⟨rfl, rfl, t, ht, rfl⟩

/-- Witness for `not_found_envelope` at `GET /nonexistent-endpoint`. -/
theorem not_found_envelope_witness :
    (step cfg0 collab0 missingReq t0).1.status = 404 ∧
    (step cfg0 collab0 missingReq t0).1.body = .json (.obj [
      ("error", .str "Not Found"),
      ("message", .str "The requested resource was not found"),
      ("status_code", .num 404),
      ("timestamp", .str (isoformat t0))]) ∧
    IsISO8601 (isoformat t0) :=
  not_found_envelope cfg0 collab0 missingReq t0 rfl (by decide)

/-- **C7** — A request using a method not listed in the route table for a
known path is answered with HTTP 405 through the framework's standard
MethodNotAllowed fallback (no custom body); hence no method outside the
route table is ever accepted on any known path. -/
theorem method_not_allowed_contract (cfg : Config) (c : Collab)
    (req : Request) (t : DateTime) (ms : List String)
    (hpath : routeMethods req.path = some ms) (hm : req.method ∉ ms) :
    (step cfg c req t).1.status = 405 ∧
    (step cfg c req t).1.body = .frameworkDefault := by
  have hstep : step cfg c req t = (⟨405, .frameworkDefault⟩, cfg) := by
    simp only [step]
    rw [hpath]
    simp only [if_neg hm]
  rw [hstep]
  exact ⟨rfl, rfl⟩

/-- Witness for `method_not_allowed_contract` at `POST /health`. -/
theorem method_not_allowed_contract_witness :
    (step cfg0 collab0 ⟨"POST", "/health", none, [], .noneVal⟩ t0).1.status = 405 ∧
    (step cfg0 collab0 ⟨"POST", "/health", none, [], .noneVal⟩ t0).1.body =
      .frameworkDefault :=
  method_not_allowed_contract cfg0 collab0 ⟨"POST", "/health", none, [], .noneVal⟩
    t0 ["GET"] rfl (by decide)

/-- **C1 counterexample** — The claim "`echo` is deep-equal to the input
for every valid JSON value" fails at the input `false`: the idiom
`request.get_json() or \x7b\x7d` replaces every Python-falsy parsed value
by the empty dict, so `POST /api/echo` with body `false` answers with
`echo == \x7b\x7d`, not `false`. -/
theorem echo_false_counterexample :
    (step cfg0 collab0 (echoReq (.ok (.bool false))) t0).1.field "echo" =
      some (Json.obj []) ∧
    Json.obj [] ≠ Json.bool false :=
  ⟨rfl, fun h => Json.noConfusion h⟩

/-- **C1 (amended)** — For every JSON value `v` that is truthy in Python's
sense (not `null`, `false`, `0`, `\x22\x22`, `[]` or `\x7b\x7d`),
`POST /api/echo` with body `v` returns HTTP 200 with `echo` deep-equal
(structurally identical) to `v`; Python-falsy values are replaced by the
empty object, so the empty object itself still round-trips. -/
theorem echo_deep_equal_truthy (cfg : Config) (c : Collab) (v : Json)
    (t : DateTime) (hv : v.pyTruthy = true) :
    (step cfg c (echoReq (.ok v)) t).1.status = 200 ∧
    (step cfg c (echoReq (.ok v)) t).1.field "echo" = some v := by
  refine ⟨rfl, ?_⟩
  have h : (step cfg c (echoReq (.ok v)) t).1.field "echo" =
      some (if v.pyTruthy then v else Json.obj []) := rfl
  rw [h, hv]
  simp

/-- Witness for `echo_deep_equal_truthy` at a nested object payload. -/
theorem echo_deep_equal_truthy_witness :
    (step cfg0 collab0 (echoReq (.ok (Json.obj
      [("message", .str "Hello, World!"), ("number", .num 42)]))) t0).1.status
      = 200 ∧
    (step cfg0 collab0 (echoReq (.ok (Json.obj
      [("message", .str "Hello, World!"), ("number", .num 42)]))) t0).1.field
      "echo" = some (Json.obj
      [("message", .str "Hello, World!"), ("number", .num 42)]) :=
  echo_deep_equal_truthy cfg0 collab0
    (Json.obj [("message", .str "Hello, World!"), ("number", .num 42)]) t0 rfl

/-- **C2** — The claimed graceful degradation does not happen: with psutil
unavailable, `import psutil` (app.py line 204) raises before the `try`
block, the `except ImportError` fallback (lines 222–233) cannot catch it,
and `GET /api/metrics` is answered by the 500 responder — not HTTP 200
with a placeholder `system` string.  The unreachable fallback payload
itself would have matched the claim. -/
theorem metrics_psutil_missing :
    (step cfg0 collabNoPsutil metricsReq t0).1.status = 500 ∧
    (step cfg0 collabNoPsutil metricsReq t0).1.field "system" = none ∧
    (step cfg0 collabNoPsutil metricsReq t0).1.body =
      (internal_error t0).body ∧
    (api_metrics_fallback cfg0 collabNoPsutil t0).status = 200 ∧
    (api_metrics_fallback cfg0 collabNoPsutil t0).field "system" =
      some (.str "metrics unavailable - psutil not installed") :=
  ⟨rfl, rfl, rfl, rfl, rfl⟩

/-- **C3** — A `POST /api/echo` request whose body-parse outcome is `None`
(absent or silently unparseable body) is answered with HTTP 200 and
`echo == \x7b\x7d`; and HTTP 400 arises only when obtaining the body
raised (a genuinely malformed body). -/
theorem echo_empty_body (cfg : Config) (c : Collab) (t : DateTime)
    (req : Request) (hp : req.path = "/api/echo") (hm : req.method = "POST")
    (hb : req.parsedBody = .noneVal) :
    ((step cfg c req t).1.status = 200 ∧
     (step cfg c req t).1.field "echo" = some (Json.obj [])) ∧
    (∀ req' : Request, req'.path = "/api/echo" → req'.method = "POST" →
      (step cfg c req' t).1.status = 400 →
      ∃ msg, req'.parsedBody = ParseResult.parseError msg) := by
  constructor
  · obtain ⟨m, p, ct, hs, pb⟩ := req
    simp only at hp hm hb
    subst hp hm hb
    exact ⟨rfl, rfl⟩
  · intro req' hp' hm' h400
    obtain ⟨m', p', ct', hs', pb'⟩ := req'
    simp only at hp' hm' h400 ⊢
    subst hp' hm'
    cases pb' with
    | ok j =>
      exfalso
      have h200 : (step cfg c ⟨"POST", "/api/echo", ct', hs', .ok j⟩ t).1.status
          = 200 := rfl
      rw [h400] at h200
      exact absurd h200 (by decide)
    | noneVal =>
      exfalso
      have h200 : (step cfg c ⟨"POST", "/api/echo", ct', hs', .noneVal⟩ t).1.status
          = 200 := rfl
      rw [h400] at h200
      exact absurd h200 (by decide)
    | parseError msg => exact ⟨msg, rfl⟩

/-- Witness for `echo_empty_body` at an absent body. -/
theorem echo_empty_body_witness :
    (step cfg0 collab0 (echoReq .noneVal) t0).1.status = 200 ∧
    (step cfg0 collab0 (echoReq .noneVal) t0).1.field "echo" =
      some (Json.obj []) :=
  (echo_empty_body cfg0 collab0 t0 (echoReq .noneVal) rfl rfl rfl).1

/-- **C8** — `GET /health` never mutates observable state (the process-wide
configuration is returned unchanged), and two calls against the same
configuration produce JSON bodies that agree on every field other than
`timestamp`. -/
theorem health_idempotent (cfg : Config) (c : Collab) (ta tb : DateTime) :
    (step cfg c healthReq ta).2 = cfg ∧
    ∀ k : String, k ≠ "timestamp" →
      (step cfg c healthReq ta).1.field k = (step cfg c healthReq tb).1.field k := by
  refine ⟨rfl, fun k hk => ?_⟩
  show (health_check cfg ta).field k = (health_check cfg tb).field k
  by_cases h1 : "status" = k
  · subst h1; rfl
  by_cases h2 : "timestamp" = k
  · exact absurd h2.symm hk
  by_cases h3 : "version" = k
  · subst h3; rfl
  by_cases h4 : "uptime" = k
  · subst h4; rfl
  simp [health_check, Response.field, Json.lookup, List.find?, h1, h2, h3, h4]

/-- Witness for `health_idempotent`: the `status` fields of two calls at
different clock readings coincide. -/
theorem health_idempotent_witness :
    (step cfg0 collab0 healthReq t0).2 = cfg0 ∧
    (step cfg0 collab0 healthReq t0).1.field "status" =
      (step cfg0 collab0 healthReq t1).1.field "status" :=
  ⟨(health_idempotent cfg0 collab0 t0 t1).1,
   (health_idempotent cfg0 collab0 t0 t1).2 "status" (by decide)⟩

/-- **C9** — The debug and testing flags are true exactly when the
corresponding environment variable (`FLASK_DEBUG` / `FLASK_TESTING`) is
set and its value lowercased is exactly `"true"`; any other value, and
an unset variable, yield `false`. -/
theorem flag_env_semantics (env : Env) (cfg : Config)
    (h : create_app env = some cfg) :
    (cfg.debug = true ↔ ∃ v, env "FLASK_DEBUG" = some v ∧ pyLower v = "true") ∧
    (cfg.testing = true ↔ ∃ v, env "FLASK_TESTING" = some v ∧ pyLower v = "true") := by
  unfold create_app at h
  cases hp : pyInt? (envGet env "PORT" "5000") with
  | none => rw [hp] at h; cases h
  | some p =>
    rw [hp] at h
    injection h with h
    subst h
    constructor
    · simp only [decide_eq_true_eq]
      cases he : env "FLASK_DEBUG" with
      | none =>
        simp only [envGet, he, Option.getD_none]
        simp only [pyLower]
        constructor
        · intro hv; exact absurd hv (by decide)
        · rintro ⟨v', hv', h'⟩; cases hv'
      | some v =>
        simp only [envGet, he, Option.getD_some]
        constructor
        · intro hv; exact ⟨v, rfl, hv⟩
        · rintro ⟨v', hv', h'⟩; cases hv'; exact h'
    · simp only [decide_eq_true_eq]
      cases he : env "FLASK_TESTING" with
      | none =>
        simp only [envGet, he, Option.getD_none]
        simp only [pyLower]
        constructor
        · intro hv; exact absurd hv (by decide)
        · rintro ⟨v', hv', h'⟩; cases hv'
      | some v =>
        simp only [envGet, he, Option.getD_some]
        constructor
        · intro hv; exact ⟨v, rfl, hv⟩
        · rintro ⟨v', hv', h'⟩; cases hv'; exact h'

/-- Witness for `flag_env_semantics` at `env1`
(`FLASK_DEBUG=1`, `FLASK_TESTING=TRUE`): `"1"` yields `false`, `"TRUE"`
yields `true`. -/
theorem flag_env_semantics_witness :
    create_app env1 = some cfg1 ∧
    ((cfg1.debug = true ↔ ∃ v, env1 "FLASK_DEBUG" = some v ∧ pyLower v = "true") ∧
     (cfg1.testing = true ↔ ∃ v, env1 "FLASK_TESTING" = some v ∧ pyLower v = "true")) :=
  ⟨rfl, flag_env_semantics env1 cfg1 rfl⟩

/-- **C10** — The version string is the hardcoded constant `"1.0.0"`: for
every environment the configuration built by `create_app` carries
`version = "1.0.0"`, and `GET /health`, `GET /api/status` and
`GET /api/version` all report exactly that string. -/
theorem version_hardcoded (env : Env) (cfg : Config) (c : Collab)
    (t : DateTime) (h : create_app env = some cfg) :
    cfg.version = "1.0.0" ∧
    (step cfg c healthReq t).1.field "version" = some (.str "1.0.0") ∧
    (step cfg c statusReq t).1.field "version" = some (.str "1.0.0") ∧
    (step cfg c versionReq t).1.field "version" = some (.str "1.0.0") := by
  unfold create_app at h
  cases hp : pyInt? (envGet env "PORT" "5000") with
  | none => rw [hp] at h; cases h
  | some p =>
    rw [hp] at h
    injection h with h
    subst h
    exact ⟨rfl, rfl, rfl, rfl⟩

/-- Witness for `version_hardcoded` at the empty environment. -/
theorem version_hardcoded_witness :
    cfg0.version = "1.0.0" ∧
    (step cfg0 collab0 healthReq t0).1.field "version" = some (.str "1.0.0") ∧
    (step cfg0 collab0 statusReq t0).1.field "version" = some (.str "1.0.0") ∧
    (step cfg0 collab0 versionReq t0).1.field "version" = some (.str "1.0.0") :=
  version_hardcoded env0 cfg0 collab0 t0 rfl

end FlaskDemo
